import Mathlib

/-!
Verification of the line-oriented JSON-RPC server in
`src/python/direct_sap_server.py` (class `DirectSAPMCPServer`).

The embedding models JSON-decoded values (`json.loads` output) as the
inductive type `JValue`.  JSON numbers are modelled as integers; inputs
carrying floating-point literals are outside the scope of this model.
Python string conversion (`str`/f-string interpolation) is modelled by
`pyShow`; `repr` of strings is modelled without escape-sequence handling,
which is faithful on strings free of quotes and backslashes.  Python
exceptions raised by a handler are modelled as `Except.error` carrying the
exception text (`str(e)`).
-/

/-- A JSON value as produced by `json.loads`: `null`/`None`, booleans,
(integer) numbers, strings, arrays and objects.  Objects are association
lists with distinct keys, as produced by the decoder. -/
inductive JValue : Type where
  | null : JValue
  | bool : Bool → JValue
  | num : Int → JValue
  | str : String → JValue
  | arr : List JValue → JValue
  | obj : List (String × JValue) → JValue

mutual

/-- Structural (Python `==` restricted to decoded values of like type)
equality test on JSON values. -/
def beqJ : JValue → JValue → Bool
  | .null, .null => true
  | .bool a, .bool b => a == b
  | .num a, .num b => a == b
  | .str a, .str b => a == b
  | .arr a, .arr b => beqJL a b
  | .obj a, .obj b => beqJO a b
  | _, _ => false

/-- Elementwise equality of JSON arrays. -/
def beqJL : List JValue → List JValue → Bool
  | [], [] => true
  | a :: as', b :: bs' => beqJ a b && beqJL as' bs'
  | _, _ => false

/-- Entrywise equality of JSON objects. -/
def beqJO : List (String × JValue) → List (String × JValue) → Bool
  | [], [] => true
  | (k, v) :: as', (k', v') :: bs' => k == k' && beqJ v v' && beqJO as' bs'
  | _, _ => false

end

mutual

theorem beqJ_iff : ∀ a b : JValue, beqJ a b = true ↔ a = b
  | a, b => by
    cases a <;> cases b <;>
      simp [beqJ, JValue.bool.injEq, JValue.num.injEq, JValue.str.injEq,
        JValue.arr.injEq, JValue.obj.injEq]
    case arr.arr xs ys => exact beqJL_iff xs ys
    case obj.obj xs ys => exact beqJO_iff xs ys

theorem beqJL_iff : ∀ a b : List JValue, beqJL a b = true ↔ a = b
  | [], [] => by simp [beqJL]
  | [], _ :: _ => by simp [beqJL]
  | _ :: _, [] => by simp [beqJL]
  | a :: as', b :: bs' => by
    simp [beqJL, Bool.and_eq_true, beqJ_iff a b, beqJL_iff as' bs']

theorem beqJO_iff : ∀ a b : List (String × JValue), beqJO a b = true ↔ a = b
  | [], [] => by simp [beqJO]
  | [], _ :: _ => by simp [beqJO]
  | _ :: _, [] => by simp [beqJO]
  | (k, v) :: as', (k', v') :: bs' => by
    simp [beqJO, Bool.and_eq_true, beqJ_iff v v', beqJO_iff as' bs',
      Prod.ext_iff, and_assoc]

end

instance : DecidableEq JValue := fun a b => decidable_of_iff _ (beqJ_iff a b)

/-- `d.get(k, default)` on a decoded JSON object: the value bound to `k`,
or `default` when the key is absent. -/
def getD (kvs : List (String × JValue)) (k : String) (d : JValue) : JValue :=
  match kvs.find? (fun p => p.1 == k) with
  | some p => p.2
  | none => d

/-- The Python type name of a value, as it appears in exception texts. -/
def pyTypeName : JValue → String
  | .null => "\x27NoneType\x27"
  | .bool _ => "\x27bool\x27"
  | .num _ => "\x27int\x27"
  | .str _ => "\x27str\x27"
  | .arr _ => "\x27list\x27"
  | .obj _ => "\x27dict\x27"

mutual

/-- Python `str`/`repr` of a decoded JSON value.  The flag selects `repr`
(strings quoted, as inside containers) versus `str` (strings verbatim, as
at the top level of an f-string interpolation). -/
def pyShow : Bool → JValue → String
  | r, .str s => if r then "\x27" ++ s ++ "\x27" else s
  | _, .null => "None"
  | _, .bool b => if b then "True" else "False"
  | _, .num n => toString n
  | _, .arr xs => "[" ++ pyShowList xs ++ "]"
  | _, .obj kvs => "\x7b" ++ pyShowObj kvs ++ "\x7d"

/-- Comma-separated `repr`s of list elements. -/
def pyShowList : List JValue → String
  | [] => ""
  | [x] => pyShow true x
  | x :: xs => pyShow true x ++ ", " ++ pyShowList xs

/-- Comma-separated `key: value` reprs of dict entries. -/
def pyShowObj : List (String × JValue) → String
  | [] => ""
  | [(k, v)] => "\x27" ++ k ++ "\x27: " ++ pyShow true v
  | (k, v) :: kvs => "\x27" ++ k ++ "\x27: " ++ pyShow true v ++ ", " ++ pyShowObj kvs

end

/-- `v.get(...)` requires a dict: yields its entries, or the
`AttributeError` text Python raises on any other type. -/
def asDict : JValue → Except String (List (String × JValue))
  | .obj kvs => .ok kvs
  | v => .error (pyTypeName v ++ " object has no attribute \x27get\x27")

/-- The fixed negotiated envelope returned by every successful
`initialize` call (lines 44–54). -/
def initializeResult : JValue :=
  .obj [
    ("protocolVersion", .str "2024-11-05"),
    ("capabilities", .obj [("tools", .obj []), ("resources", .obj [])]),
    ("serverInfo", .obj [("name", .str "sap-automation"), ("version", .str "1.0.0")])]

/-- `handle_initialize` (lines 25–57): rejects non-dict params with
`ValueError("params must be a dictionary")`; otherwise the extracted
fields are used for logging only and the fixed negotiated envelope
`initializeResult` is returned. -/
def handle_initialize (params : JValue) : Except String JValue :=
  match params with
  | .obj _kvs => .ok initializeResult
  | _ => .error "params must be a dictionary"

/-- A string-typed property schema: `{"type": "string", "description": d}`. -/
def pstr (d : String) : JValue :=
  .obj [("type", .str "string"), ("description", .str d)]

/-- A string-typed property schema with a default value. -/
def pstrD (d dv : String) : JValue :=
  .obj [("type", .str "string"), ("description", .str d), ("default", .str dv)]

/-- An integer-typed property schema. -/
def pint (d : String) : JValue :=
  .obj [("type", .str "integer"), ("description", .str d)]

/-- An integer-typed property schema with a default value. -/
def pintD (d : String) (dv : Int) : JValue :=
  .obj [("type", .str "integer"), ("description", .str d), ("default", .num dv)]

/-- The `session_id` property schema shared by most tools. -/
def sessionProp : JValue := pstrD "Session ID" "default"

/-- A tool descriptor `{name, description, inputSchema}` with an
object-typed input schema of the given properties and required names. -/
def toolDesc (name desc : String) (props : List (String × JValue))
    (req : List String) : JValue :=
  .obj [
    ("name", .str name),
    ("description", .str desc),
    ("inputSchema", .obj [
      ("type", .str "object"),
      ("properties", .obj props),
      ("required", .arr (req.map .str))])]

/-- The ordered tool catalog built by `handle_tools_list` (lines 61–368). -/
def tools_catalog : List JValue := [
  toolDesc "sap_connect" "Connect to SAP system with credentials"
    [("system_id", pstr "SAP system ID"),
     ("client", pstr "SAP client number"),
     ("username", pstr "Username"),
     ("password", pstr "Password"),
     ("server", pstr "SAP server address"),
     ("instance", pstrD "Instance number" "00"),
     ("language", pstrD "Login language" "EN")]
    ["system_id", "client", "username", "password", "server"],
  toolDesc "sap_disconnect" "Disconnect from SAP system"
    [("session_id", pstr "Session ID to disconnect")] [],
  toolDesc "sap_get_sessions" "Get list of active SAP sessions" [] [],
  toolDesc "sap_navigate" "Navigate to SAP transaction"
    [("transaction_code", pstr "Transaction code (e.g., VA01, MM01, SE80)"),
     ("session_id", sessionProp)]
    ["transaction_code"],
  toolDesc "sap_navigate_back" "Navigate back in SAP (F3 equivalent)"
    [("session_id", sessionProp)] [],
  toolDesc "sap_navigate_exit" "Exit current transaction (F15 equivalent)"
    [("session_id", sessionProp)] [],
  toolDesc "sap_input_field" "Input data into a specific SAP field"
    [("field_id", pstr "Field ID or name"),
     ("value", pstr "Value to input"),
     ("session_id", sessionProp)]
    ["field_id", "value"],
  toolDesc "sap_get_field_value" "Get value from a specific SAP field"
    [("field_id", pstr "Field ID or name"),
     ("session_id", sessionProp)]
    ["field_id"],
  toolDesc "sap_clear_field" "Clear a specific SAP field"
    [("field_id", pstr "Field ID or name"),
     ("session_id", sessionProp)]
    ["field_id"],
  toolDesc "sap_press_button" "Press a button in SAP GUI"
    [("button_id", pstr "Button ID or name"),
     ("session_id", sessionProp)]
    ["button_id"],
  toolDesc "sap_select_menu" "Select menu item in SAP GUI"
    [("menu_path", pstr "Menu path (e.g., \x27System->User Profile->Own Data\x27)"),
     ("session_id", sessionProp)]
    ["menu_path"],
  toolDesc "sap_send_key" "Send function key or key combination"
    [("key", pstr "Key to send (F1-F24, Enter, Escape, etc.)"),
     ("session_id", sessionProp)]
    ["key"],
  toolDesc "sap_get_table_data" "Extract data from SAP table/grid"
    [("table_id", pstr "Table/grid ID"),
     ("row_start", pintD "Starting row (0-based)" 0),
     ("row_count", pintD "Number of rows to extract" 10),
     ("columns", .obj [("type", .str "array"),
        ("items", .obj [("type", .str "string")]),
        ("description", .str "Specific columns to extract (optional)")]),
     ("session_id", sessionProp)]
    ["table_id"],
  toolDesc "sap_set_table_cell" "Set value in specific table cell"
    [("table_id", pstr "Table/grid ID"),
     ("row", pint "Row number (0-based)"),
     ("column", pstr "Column name or ID"),
     ("value", pstr "Value to set"),
     ("session_id", sessionProp)]
    ["table_id", "row", "column", "value"],
  toolDesc "sap_select_table_row" "Select row(s) in SAP table"
    [("table_id", pstr "Table/grid ID"),
     ("row", pint "Row number (0-based)"),
     ("multi_select", .obj [("type", .str "boolean"),
        ("description", .str "Allow multiple selection"),
        ("default", .bool false)]),
     ("session_id", sessionProp)]
    ["table_id", "row"],
  toolDesc "sap_get_screen_info" "Get current screen information"
    [("session_id", sessionProp)] [],
  toolDesc "sap_get_status_message" "Get current status bar message"
    [("session_id", sessionProp)] [],
  toolDesc "sap_screenshot" "Take screenshot of SAP screen"
    [("filename", pstrD "Output filename" "sap_screenshot.png"),
     ("session_id", sessionProp)] [],
  toolDesc "sap_execute_transaction" "Execute complete transaction with multiple steps"
    [("transaction_code", pstr "Transaction to execute"),
     ("steps", .obj [("type", .str "array"),
        ("items", .obj [("type", .str "object"),
          ("properties", .obj [
            ("action", pstr "Action type (input, button, key)"),
            ("target", pstr "Target field/button ID"),
            ("value", pstr "Value (for input actions)")])]),
        ("description", .str "List of steps to execute")]),
     ("session_id", sessionProp)]
    ["transaction_code", "steps"],
  toolDesc "sap_wait_for_screen" "Wait for specific screen to load"
    [("screen_id", pstr "Screen ID to wait for"),
     ("timeout", pintD "Timeout in seconds" 30),
     ("session_id", sessionProp)]
    ["screen_id"],
  toolDesc "sap_export_data" "Export SAP data to file"
    [("data_source", pstr "Data source (table, screen, etc.)"),
     ("format", .obj [("type", .str "string"),
        ("description", .str "Export format"),
        ("enum", .arr [.str "csv", .str "xlsx", .str "txt", .str "xml"])]),
     ("filename", pstr "Output filename"),
     ("session_id", sessionProp)]
    ["data_source", "format", "filename"],
  toolDesc "sap_import_data" "Import data into SAP from file"
    [("filename", pstr "Input filename"),
     ("target", pstr "Target field or table"),
     ("mapping", .obj [("type", .str "object"),
        ("description", .str "Field mapping configuration")]),
     ("session_id", sessionProp)]
    ["filename", "target"]]

/-- `handle_tools_list` (lines 59–370): returns `{"tools": tools}` with
the fixed ordered catalog; reads no arguments and no state. -/
def handle_tools_list : JValue := .obj [("tools", .arr tools_catalog)]

/-- The `name` field of a tool descriptor, when it is a string. -/
def descriptorName : JValue → Option String
  | .obj kvs =>
      match getD kvs "name" .null with
      | .str s => some s
      | _ => none
  | _ => none

/-- The registered tool identifiers: the names of the catalog entries. -/
def catalogToolNames : List String := tools_catalog.filterMap descriptorName

/-- A value used where an `int` is required (`range` bounds): Python
accepts `bool` as an `int` subclass and raises `TypeError` otherwise. -/
def asInt : JValue → Except String Int
  | .num n => .ok n
  | .bool b => .ok (if b then 1 else 0)
  | v => .error (pyTypeName v ++ " object cannot be interpreted as an integer")

/-- Iteration over a value (`for x in v`): arrays yield elements, strings
yield one-character strings, dicts yield their keys; other types raise
`TypeError`. -/
def iterElems : JValue → Except String (List JValue)
  | .arr xs => .ok xs
  | .str s => .ok (s.data.map fun c => .str (String.singleton c))
  | .obj kvs => .ok (kvs.map fun p => .str p.1)
  | v => .error (pyTypeName v ++ " object is not iterable")

/-- Using a value as a dict key requires hashability: lists and dicts
raise `TypeError`. -/
def hashable : JValue → Except String Unit
  | .arr _ => .error "unhashable type: \x27list\x27"
  | .obj _ => .error "unhashable type: \x27dict\x27"
  | _ => .ok ()

/-- `range(a, b)` as a list of integers. -/
def intRange (a b : Int) : List Int := (List.range (b - a).toNat).map (fun i => a + i)

/-- Python dict assignment `d[k] = v`: an existing equal key keeps its
position (and original key object), a new key is appended. -/
def dictInsert : List (JValue × JValue) → JValue → JValue → List (JValue × JValue)
  | [], k, v => [(k, v)]
  | (k', v') :: rest, k, v =>
      if k' = k then (k', v) :: rest else (k', v') :: dictInsert rest k v

/-- A dict built by successive assignments from a list of pairs. -/
def buildDict (ps : List (JValue × JValue)) : List (JValue × JValue) :=
  ps.foldl (fun d p => dictInsert d p.1 p.2) []

/-- Python `str` of a dict with arbitrary (hashable) keys. -/
def rowStr (d : List (JValue × JValue)) : String :=
  "\x7b" ++ String.intercalate ", "
    (d.map fun p => pyShow true p.1 ++ ": " ++ pyShow true p.2) ++ "\x7d"

/-- `handle_tool_call` (lines 372–544): dispatch on the requested tool
name, producing a mock textual result wrapped as
`{content: [{type: "text", text: ...}]}`; an unrecognized tool name is a
successful result, not an error. -/
def handle_tool_call (params : JValue) : Except String JValue := do
  let pkvs ← asDict params
  let tool_name := getD pkvs "name" .null
  let arguments := getD pkvs "arguments" (.obj [])
  let result_text ←
    if tool_name = JValue.str "sap_connect" then do
      let args ← asDict arguments
      let system_id := getD args "system_id" (.str "DEV")
      let client := getD args "client" (.str "100")
      let _username := getD args "username" (.str "user")
      let server := getD args "server" (.str "localhost")
      let language := getD args "language" (.str "EN")
      pure ("Successfully connected to SAP system " ++ pyShow false system_id ++
        " client " ++ pyShow false client ++ " on server " ++ pyShow false server ++
        " with language " ++ pyShow false language)
    else if tool_name = JValue.str "sap_disconnect" then do
      let args ← asDict arguments
      let session_id := getD args "session_id" (.str "default")
      pure ("Successfully disconnected from SAP session " ++ pyShow false session_id)
    else if tool_name = JValue.str "sap_get_sessions" then
      pure "Active SAP sessions: Session[0] - DEV/100, Session[1] - QAS/100"
    else if tool_name = JValue.str "sap_navigate" then do
      let args ← asDict arguments
      let tcode := getD args "transaction_code" (.str "UNKNOWN")
      let session_id := getD args "session_id" (.str "default")
      pure ("Successfully navigated to transaction " ++ pyShow false tcode ++
        " in session " ++ pyShow false session_id)
    else if tool_name = JValue.str "sap_navigate_back" then do
      let args ← asDict arguments
      let session_id := getD args "session_id" (.str "default")
      pure ("Navigated back (F3) in session " ++ pyShow false session_id)
    else if tool_name = JValue.str "sap_navigate_exit" then do
      let args ← asDict arguments
      let session_id := getD args "session_id" (.str "default")
      pure ("Exited transaction (F15) in session " ++ pyShow false session_id)
    else if tool_name = JValue.str "sap_input_field" then do
      let args ← asDict arguments
      let field_id := getD args "field_id" (.str "FIELD")
      let value := getD args "value" (.str "")
      let session_id := getD args "session_id" (.str "default")
      pure ("Successfully input \x27" ++ pyShow false value ++ "\x27 into field \x27" ++
        pyShow false field_id ++ "\x27 in session " ++ pyShow false session_id)
    else if tool_name = JValue.str "sap_get_field_value" then do
      let args ← asDict arguments
      let field_id := getD args "field_id" (.str "FIELD")
      let session_id := getD args "session_id" (.str "default")
      let mock_value := "VALUE_FROM_" ++ pyShow false field_id
      pure ("Field \x27" ++ pyShow false field_id ++ "\x27 value: \x27" ++ mock_value ++
        "\x27 in session " ++ pyShow false session_id)
    else if tool_name = JValue.str "sap_clear_field" then do
      let args ← asDict arguments
      let field_id := getD args "field_id" (.str "FIELD")
      let session_id := getD args "session_id" (.str "default")
      pure ("Successfully cleared field \x27" ++ pyShow false field_id ++
        "\x27 in session " ++ pyShow false session_id)
    else if tool_name = JValue.str "sap_press_button" then do
      let args ← asDict arguments
      let button_id := getD args "button_id" (.str "BUTTON")
      let session_id := getD args "session_id" (.str "default")
      pure ("Successfully pressed button \x27" ++ pyShow false button_id ++
        "\x27 in session " ++ pyShow false session_id)
    else if tool_name = JValue.str "sap_select_menu" then do
      let args ← asDict arguments
      let menu_path := getD args "menu_path" (.str "Menu->Item")
      let session_id := getD args "session_id" (.str "default")
      pure ("Successfully selected menu \x27" ++ pyShow false menu_path ++
        "\x27 in session " ++ pyShow false session_id)
    else if tool_name = JValue.str "sap_send_key" then do
      let args ← asDict arguments
      let key := getD args "key" (.str "Enter")
      let session_id := getD args "session_id" (.str "default")
      pure ("Successfully sent key \x27" ++ pyShow false key ++
        "\x27 in session " ++ pyShow false session_id)
    else if tool_name = JValue.str "sap_get_table_data" then do
      let args ← asDict arguments
      let table_id := getD args "table_id" (.str "TABLE")
      let row_start ← asInt (getD args "row_start" (.num 0))
      let row_count ← asInt (getD args "row_count" (.num 10))
      let columns := getD args "columns" (.arr [.str "COL1", .str "COL2", .str "COL3"])
      let _session_id := getD args "session_id" (.str "default")
      let mock_data ← (intRange row_start (row_start + row_count)).mapM (fun i => do
        let cols ← iterElems columns
        let pairs ← cols.mapM (fun col => do
          hashable col
          pure (col, JValue.str (pyShow false col ++ "_VALUE_" ++ toString i)))
        pure (buildDict pairs))
      pure ("Extracted " ++ toString mock_data.length ++ " rows from table \x27" ++
        pyShow false table_id ++ "\x27: [" ++
        String.intercalate ", " (mock_data.map rowStr) ++ "]")
    else if tool_name = JValue.str "sap_set_table_cell" then do
      let args ← asDict arguments
      let table_id := getD args "table_id" (.str "TABLE")
      let row := getD args "row" (.num 0)
      let column := getD args "column" (.str "COL1")
      let value := getD args "value" (.str "")
      let session_id := getD args "session_id" (.str "default")
      pure ("Set cell [" ++ pyShow false row ++ "][" ++ pyShow false column ++
        "] = \x27" ++ pyShow false value ++ "\x27 in table \x27" ++ pyShow false table_id ++
        "\x27 in session " ++ pyShow false session_id)
    else if tool_name = JValue.str "sap_select_table_row" then do
      let args ← asDict arguments
      let table_id := getD args "table_id" (.str "TABLE")
      let row := getD args "row" (.num 0)
      let multi_select := getD args "multi_select" (.bool false)
      let session_id := getD args "session_id" (.str "default")
      pure ("Selected row " ++ pyShow false row ++ " in table \x27" ++
        pyShow false table_id ++ "\x27 (multi: " ++ pyShow false multi_select ++
        ") in session " ++ pyShow false session_id)
    else if tool_name = JValue.str "sap_get_screen_info" then do
      let args ← asDict arguments
      let session_id := getD args "session_id" (.str "default")
      let screen_info := JValue.obj [
        ("program", .str "SAPMV45A"),
        ("screen", .str "4001"),
        ("transaction", .str "VA01"),
        ("title", .str "Create Sales Order")]
      pure ("Screen info for session " ++ pyShow false session_id ++ ": " ++
        pyShow false screen_info)
    else if tool_name = JValue.str "sap_get_status_message" then do
      let args ← asDict arguments
      let session_id := getD args "session_id" (.str "default")
      let status_msg := "Document saved successfully"
      pure ("Status message in session " ++ pyShow false session_id ++ ": \x27" ++
        status_msg ++ "\x27")
    else if tool_name = JValue.str "sap_screenshot" then do
      let args ← asDict arguments
      let filename := getD args "filename" (.str "sap_screenshot.png")
      let session_id := getD args "session_id" (.str "default")
      pure ("Screenshot saved as \x27" ++ pyShow false filename ++
        "\x27 from session " ++ pyShow false session_id)
    else if tool_name = JValue.str "sap_execute_transaction" then do
      let args ← asDict arguments
      let tcode := getD args "transaction_code" (.str "VA01")
      let steps := getD args "steps" (.arr [])
      let _session_id := getD args "session_id" (.str "default")
      let stepList ← iterElems steps
      let executed_steps ← stepList.enum.mapM (fun p => do
        let s ← asDict p.2
        let action := getD s "action" (.str "unknown")
        let target := getD s "target" (.str "unknown")
        let value := getD s "value" (.str "")
        pure ("Step " ++ toString (p.1 + 1) ++ ": " ++ pyShow false action ++
          " on " ++ pyShow false target ++ " with \x27" ++ pyShow false value ++ "\x27"))
      pure ("Executed transaction " ++ pyShow false tcode ++ " with " ++
        toString stepList.length ++ " steps: " ++
        String.intercalate "; " executed_steps)
    else if tool_name = JValue.str "sap_wait_for_screen" then do
      let args ← asDict arguments
      let screen_id := getD args "screen_id" (.str "SCREEN")
      let timeout' := getD args "timeout" (.num 30)
      let session_id := getD args "session_id" (.str "default")
      pure ("Successfully waited for screen \x27" ++ pyShow false screen_id ++
        "\x27 (timeout: " ++ pyShow false timeout' ++ "s) in session " ++
        pyShow false session_id)
    else if tool_name = JValue.str "sap_export_data" then do
      let args ← asDict arguments
      let data_source := getD args "data_source" (.str "TABLE")
      let format_type := getD args "format" (.str "csv")
      let filename := getD args "filename" (.str "export.csv")
      let session_id := getD args "session_id" (.str "default")
      pure ("Exported data from \x27" ++ pyShow false data_source ++ "\x27 to \x27" ++
        pyShow false filename ++ "\x27 in " ++ pyShow false format_type ++
        " format from session " ++ pyShow false session_id)
    else if tool_name = JValue.str "sap_import_data" then do
      let args ← asDict arguments
      let filename := getD args "filename" (.str "import.csv")
      let target := getD args "target" (.str "TABLE")
      let mapping := getD args "mapping" (.obj [])
      let session_id := getD args "session_id" (.str "default")
      pure ("Imported data from \x27" ++ pyShow false filename ++ "\x27 to \x27" ++
        pyShow false target ++ "\x27 with mapping " ++ pyShow false mapping ++
        " in session " ++ pyShow false session_id)
    else
      pure ("Unknown SAP tool: " ++ pyShow false tool_name ++
        ". Available tools: sap_connect, sap_navigate, sap_input_field, sap_get_table_data, etc.")
  pure (JValue.obj [("content", JValue.arr [JValue.obj [
    ("type", JValue.str "text"), ("text", JValue.str result_text)]])])

/-- The per-process session state: the single lifecycle flag. -/
structure ServerState where
  initialized : Bool
deriving DecidableEq

/-- A success response envelope `{"jsonrpc": "2.0", "id": ..., "result": ...}`. -/
def successResponse (id result : JValue) : JValue :=
  .obj [("jsonrpc", .str "2.0"), ("id", id), ("result", result)]

/-- The error response built by the error boundary (lines 595–605):
code `-32602`, fixed message, the exception text as `data`. -/
def invalidParamsResponse (id : JValue) (data : String) : JValue :=
  .obj [("jsonrpc", .str "2.0"), ("id", id),
    ("error", .obj [("code", .num (-32602)),
      ("message", .str "Invalid request parameters"),
      ("data", .str data)])]

/-- The `-32601` method-not-found response (lines 586–593). -/
def methodNotFoundResponse (id method : JValue) : JValue :=
  .obj [("jsonrpc", .str "2.0"), ("id", id),
    ("error", .obj [("code", .num (-32601)),
      ("message", .str ("Method not found: " ++ pyShow false method))])]

/-- The `-32700` parse error response with null id (lines 630–637). -/
def parseErrorResponse : JValue :=
  .obj [("jsonrpc", .str "2.0"), ("id", .null),
    ("error", .obj [("code", .num (-32700)), ("message", .str "Parse error")])]

/-- `handle_request` (lines 546–605): extract `method`/`params`/`id`,
dispatch, and catch handler failures into a `-32602` error response.
`none` in the result means no response (the notification method).
`Except.error` models the case where the request itself is not a dict:
the first attribute access raises, and the `except` block's own
`request.get("id")` raises again, so the exception escapes the method. -/
def handle_request (st : ServerState) (request : JValue) :
    Except String (Option JValue × ServerState) :=
  match request with
  | .obj kvs =>
      let method := getD kvs "method" .null
      let params := getD kvs "params" (.obj [])
      let request_id := getD kvs "id" .null
      if method = JValue.str "initialize" then
        match handle_initialize params with
        | .ok result =>
            .ok (some (successResponse request_id result), { st with initialized := true })
        | .error e => .ok (some (invalidParamsResponse request_id e), st)
      else if method = JValue.str "notifications/initialized" then
        .ok (none, st)
      else if method = JValue.str "tools/list" then
        .ok (some (successResponse request_id handle_tools_list), st)
      else if method = JValue.str "tools/call" then
        match handle_tool_call params with
        | .ok result => .ok (some (successResponse request_id result), st)
        | .error e => .ok (some (invalidParamsResponse request_id e), st)
      else
        .ok (some (methodNotFoundResponse request_id method), st)
  | v => .error (pyTypeName v ++ " object has no attribute \x27get\x27")

/-- Python truthiness, as used by `if response:` before printing. -/
def pyTruthy : JValue → Bool
  | .null => false
  | .bool b => b
  | .num n => n != 0
  | .str s => !s.isEmpty
  | .arr xs => !xs.isEmpty
  | .obj kvs => !kvs.isEmpty

/-- One iteration of the read loop (lines 617–641) on an already-decoded
line: `none` is a line `json.loads` rejects (the `-32700` branch);
`some v` is a decoded document handed to `handle_request`.  The result is
the list of response documents printed for this line and the state for
the next iteration; an exception escaping `handle_request` is caught by
the loop's generic handler, which logs and prints nothing. -/
def processParsed (st : ServerState) (parsed : Option JValue) :
    List JValue × ServerState :=
  match parsed with
  | none => ([parseErrorResponse], st)
  | some request =>
      match handle_request st request with
      | .ok (response?, st') =>
          (match response? with
           | some r => if pyTruthy r then [r] else []
           | none => [], st')
      | .error _ => ([], st)

/-- The responses printed for one loop iteration. -/
def emittedResponses (st : ServerState) (parsed : Option JValue) : List JValue :=
  (processParsed st parsed).1

/-- The full read loop (`run`, lines 607–648) over a finite input
stream of decoded lines: concatenates the responses of each iteration,
threading the session state. -/
def runServer (st : ServerState) : List (Option JValue) → List JValue
  | [] => []
  | x :: rest =>
      let out := processParsed st x
      out.1 ++ runServer out.2 rest

/-- The `id` field of a response document. -/
def respId : JValue → JValue
  | .obj kvs => getD kvs "id" .null
  | _ => .null

/-- The session state after one `handle_request` call, when the call
returns normally. -/
def stateOf (r : Except String (Option JValue × ServerState)) : Option ServerState :=
  match r with
  | .ok (_, st) => some st
  | .error _ => none

/-- Whether a decoded document is a JSON object (a Python dict). -/
def isObjB : JValue → Bool
  | .obj _ => true
  | _ => false

/-- For a dict-shaped request whose method is not the notification
method, `handle_request` returns normally with exactly one truthy
response whose `id` field is the request's `id` value. -/
theorem handleRequest_obj_total (st : ServerState) (kvs : List (String × JValue))
    (hm : getD kvs "method" .null ≠ JValue.str "notifications/initialized") :
    ∃ r st', handle_request st (.obj kvs) = .ok (some r, st') ∧
      pyTruthy r = true ∧ respId r = getD kvs "id" .null := by
  simp only [handle_request]
  split_ifs with h1 h2 h3
  · cases h : handle_initialize (getD kvs "params" (JValue.obj [])) with
    | ok r =>
        exact ⟨successResponse (getD kvs "id" JValue.null) r,
          { st with initialized := true }, by simp [h], rfl, rfl⟩
    | error e =>
        exact ⟨invalidParamsResponse (getD kvs "id" JValue.null) e, st,
          by simp [h], rfl, rfl⟩
  · exact ⟨successResponse (getD kvs "id" JValue.null) handle_tools_list, st,
      rfl, rfl, rfl⟩
  · cases h : handle_tool_call (getD kvs "params" (JValue.obj [])) with
    | ok r =>
        exact ⟨successResponse (getD kvs "id" JValue.null) r, st, by simp [h], rfl, rfl⟩
    | error e =>
        exact ⟨invalidParamsResponse (getD kvs "id" JValue.null) e, st,
          by simp [h], rfl, rfl⟩
  · exact ⟨methodNotFoundResponse (getD kvs "id" JValue.null)
      (getD kvs "method" JValue.null), st, rfl, rfl, rfl⟩

/-- Claim C1: for every well-formed (JSON-object) request whose method is
not `notifications/initialized`, the loop iteration writes exactly one
response and its `id` equals the request's `id` — including when the
routed handler fails, in which case the single response is the error
response with the original id; no handler failure skips the write. -/
theorem claim_C1 (st : ServerState) (kvs : List (String × JValue))
    (hm : getD kvs "method" .null ≠ JValue.str "notifications/initialized") :
    (emittedResponses st (some (.obj kvs))).map respId = [getD kvs "id" .null] := by
  obtain ⟨r, st', hr, htru, hid⟩ := handleRequest_obj_total st kvs hm
  simp [emittedResponses, processParsed, hr, htru, hid]

/-- Witness for C1: a `tools/call` request with `id = 7` whose params are
`null` (so the handler raises) still yields exactly one response with id 7. -/
theorem claim_C1_witness :
    (emittedResponses ⟨false⟩ (some (JValue.obj [("method", JValue.str "tools/call"),
      ("params", JValue.null), ("id", JValue.num 7)]))).map respId = [JValue.num 7] :=
  claim_C1 ⟨false⟩ _ (by decide)

/-- Counterexample to claim C2: a well-formed `initialize` request whose
`params` is the number 5 (not a mapping) leaves the lifecycle flag false —
the handler raises before the `initialized = True` assignment runs, so the
transition is not unconditional on content validity. -/
theorem claim_C2_counterexample :
    stateOf (handle_request ⟨false⟩ (JValue.obj [("method", JValue.str "initialize"),
      ("params", JValue.num 5), ("id", JValue.num 1)])) = some ⟨false⟩ := by
  rfl

/-- Claim C2 (amended): handling a well-formed `initialize` request sets
the lifecycle flag exactly when the (defaulted) `params` value is a
mapping — in particular whenever `params` is absent — and repeated such
calls re-run the handler and keep the state Initialized; when `params` is
present and not a mapping, the handler raises before the flag assignment
and the state is unchanged. -/
theorem claim_C2_amended (st : ServerState) (kvs : List (String × JValue))
    (hm : getD kvs "method" .null = JValue.str "initialize") :
    (isObjB (getD kvs "params" (JValue.obj [])) = true →
      stateOf (handle_request st (.obj kvs)) = some ⟨true⟩) ∧
    (isObjB (getD kvs "params" (JValue.obj [])) = false →
      stateOf (handle_request st (.obj kvs)) = some st) := by
  constructor <;> intro hp <;>
    rcases hobj : getD kvs "params" (JValue.obj []) with _ | b | n | s | xs | pkvs <;>
    simp [isObjB, hobj] at hp <;>
    simp [handle_request, hm, hobj, handle_initialize, stateOf]

/-- Witness for C2 (amended): an `initialize` request with empty mapping
params flips the flag from false to true. -/
theorem claim_C2_witness :
    stateOf (handle_request ⟨false⟩ (JValue.obj [("method", JValue.str "initialize"),
      ("params", JValue.obj []), ("id", JValue.num 1)])) = some ⟨true⟩ :=
  (claim_C2_amended ⟨false⟩ _ (by decide)).1 (by decide)

/-- Counterexample to claim C3: a `tools/list` request with no `id` at
all is, per the claim, a notification that must produce no output — but
the loop iteration emits exactly one response (whose id is null). -/
theorem claim_C3_counterexample :
    (emittedResponses ⟨false⟩ (some (JValue.obj [("method",
      JValue.str "tools/list")]))).map respId = [JValue.null] := by
  rfl

/-- Claim C3 (amended): a request whose `id` is absent or null is treated
like any other request — only the method decides: for any method other
than `notifications/initialized` exactly one response is still produced,
its `id` field null; only `notifications/initialized` produces no output. -/
theorem claim_C3_amended (st : ServerState) (kvs : List (String × JValue))
    (hid : getD kvs "id" .null = JValue.null) :
    (getD kvs "method" .null ≠ JValue.str "notifications/initialized" →
      (emittedResponses st (some (.obj kvs))).map respId = [JValue.null]) ∧
    (getD kvs "method" .null = JValue.str "notifications/initialized" →
      emittedResponses st (some (.obj kvs)) = []) := by
  constructor
  · intro hm
    obtain ⟨r, st', hr, htru, hid'⟩ := handleRequest_obj_total st kvs hm
    simp [emittedResponses, processParsed, hr, htru, hid', hid]
  · intro hm
    simp [emittedResponses, processParsed, handle_request, hm]

/-- Witness for C3 (amended): a `tools/call` request with `id: null`
still gets one response with null id, and a null-id
`notifications/initialized` request gets none. -/
theorem claim_C3_witness :
    ((emittedResponses ⟨false⟩ (some (JValue.obj [("method", JValue.str "tools/call"),
      ("id", JValue.null)]))).map respId = [JValue.null]) ∧
    (emittedResponses ⟨false⟩ (some (JValue.obj [("method",
      JValue.str "notifications/initialized"), ("id", JValue.null)]))) = [] :=
  ⟨(claim_C3_amended ⟨false⟩ _ (by decide)).1 (by decide),
   (claim_C3_amended ⟨false⟩ _ (by decide)).2 (by decide)⟩

/-- Claim C4: a line that is not syntactically valid JSON produces
exactly one error response — code `-32700`, message "Parse error", null
id — bypassing the dispatcher; the loop does not crash and continues
with the remaining lines. -/
theorem claim_C4 (st : ServerState) (rest : List (Option JValue)) :
    processParsed st none =
      ([JValue.obj [("jsonrpc", JValue.str "2.0"), ("id", JValue.null),
        ("error", JValue.obj [("code", JValue.num (-32700)),
          ("message", JValue.str "Parse error")])]], st) ∧
    runServer st (none :: rest) = parseErrorResponse :: runServer st rest := by
  constructor
  · rfl
  · simp [runServer, processParsed]

/-- Claim C5: for every `initialize` request, if the (defaulted) params
value is a mapping the handler returns the fixed negotiated envelope
(whatever the mapping's content) and the server responds with it; if and
only if the params value is not a mapping, the handler fails with
"params must be a dictionary" and the server responds with a `-32602`
error carrying that message as `data`. -/
theorem claim_C5 (st : ServerState) (kvs : List (String × JValue))
    (hm : getD kvs "method" .null = JValue.str "initialize") :
    (isObjB (getD kvs "params" (JValue.obj [])) = true →
      handle_initialize (getD kvs "params" (JValue.obj [])) = .ok initializeResult ∧
      handle_request st (.obj kvs) =
        .ok (some (successResponse (getD kvs "id" .null) initializeResult), ⟨true⟩)) ∧
    (isObjB (getD kvs "params" (JValue.obj [])) = false →
      handle_initialize (getD kvs "params" (JValue.obj [])) =
        .error "params must be a dictionary" ∧
      handle_request st (.obj kvs) =
        .ok (some (invalidParamsResponse (getD kvs "id" .null)
          "params must be a dictionary"), st)) := by
  constructor <;> intro hp <;>
    rcases hobj : getD kvs "params" (JValue.obj []) with _ | b | n | s | xs | pkvs <;>
    simp [isObjB, hobj] at hp <;>
    constructor <;>
    simp [handle_request, hm, hobj, handle_initialize]

/-- Witness for C5: a nonempty mapping params yields the fixed envelope;
a string params yields the `-32602` error response. -/
theorem claim_C5_witness :
    (handle_request ⟨false⟩ (JValue.obj [("method", JValue.str "initialize"),
      ("params", JValue.obj [("protocolVersion", JValue.str "9")]), ("id", JValue.num 3)]) =
      .ok (some (successResponse (JValue.num 3) initializeResult), ⟨true⟩)) ∧
    (handle_request ⟨false⟩ (JValue.obj [("method", JValue.str "initialize"),
      ("params", JValue.str "x"), ("id", JValue.num 4)]) =
      .ok (some (invalidParamsResponse (JValue.num 4) "params must be a dictionary"),
        ⟨false⟩)) :=
  ⟨((claim_C5 ⟨false⟩ _ (by decide)).1 (by decide)).2,
   ((claim_C5 ⟨false⟩ _ (by decide)).2 (by decide)).2⟩

/-- Claim C6: a well-formed request whose method is a string other than
the four supported ones is answered with an error of code `-32601` and
message "Method not found: {method}" (the method name interpolated), the
response id copied from the request, and exactly that one response is
written. -/
theorem claim_C6 (st : ServerState) (kvs : List (String × JValue)) (m : String)
    (hm : getD kvs "method" .null = JValue.str m)
    (h1 : m ≠ "initialize") (h2 : m ≠ "notifications/initialized")
    (h3 : m ≠ "tools/list") (h4 : m ≠ "tools/call") :
    handle_request st (.obj kvs) =
      .ok (some (JValue.obj [("jsonrpc", JValue.str "2.0"),
        ("id", getD kvs "id" .null),
        ("error", JValue.obj [("code", JValue.num (-32601)),
          ("message", JValue.str ("Method not found: " ++ m))])]), st) ∧
    emittedResponses st (some (.obj kvs)) =
      [JValue.obj [("jsonrpc", JValue.str "2.0"), ("id", getD kvs "id" .null),
        ("error", JValue.obj [("code", JValue.num (-32601)),
          ("message", JValue.str ("Method not found: " ++ m))])]] := by
  have h : handle_request st (.obj kvs) =
      .ok (some (methodNotFoundResponse (getD kvs "id" .null) (JValue.str m)), st) := by
    simp [handle_request, hm, JValue.str.injEq, h1, h2, h3, h4]
  refine ⟨by simpa [methodNotFoundResponse, pyShow] using h, ?_⟩
  simp [emittedResponses, processParsed, h, methodNotFoundResponse, pyShow, pyTruthy]

/-- Witness for C6: method "foo" with id 7 yields the `-32601` response
with id 7. -/
theorem claim_C6_witness :
    handle_request ⟨false⟩ (JValue.obj [("method", JValue.str "foo"),
      ("id", JValue.num 7)]) =
      .ok (some (JValue.obj [("jsonrpc", JValue.str "2.0"), ("id", JValue.num 7),
        ("error", JValue.obj [("code", JValue.num (-32601)),
          ("message", JValue.str "Method not found: foo")])]), ⟨false⟩) ∧
    emittedResponses ⟨false⟩ (some (JValue.obj [("method", JValue.str "foo"),
      ("id", JValue.num 7)])) =
      [JValue.obj [("jsonrpc", JValue.str "2.0"), ("id", JValue.num 7),
        ("error", JValue.obj [("code", JValue.num (-32601)),
          ("message", JValue.str "Method not found: foo")])]] :=
  claim_C6 ⟨false⟩ _ "foo" (by decide) (by decide) (by decide) (by decide) (by decide)

/-- Claim C8: a `notifications/initialized` request — whatever its params
or id — makes `handle_request` return `None` and the loop write zero
response lines. -/
theorem claim_C8 (st : ServerState) (kvs : List (String × JValue))
    (hm : getD kvs "method" .null = JValue.str "notifications/initialized") :
    handle_request st (.obj kvs) = .ok (none, st) ∧
    emittedResponses st (some (.obj kvs)) = [] := by
  have h : handle_request st (.obj kvs) = .ok (none, st) := by
    simp [handle_request, hm]
  exact ⟨h, by simp [emittedResponses, processParsed, h]⟩

/-- Witness for C8: the notification with params and id attached still
produces no output. -/
theorem claim_C8_witness :
    handle_request ⟨true⟩ (JValue.obj [("method",
      JValue.str "notifications/initialized"), ("params", JValue.num 3),
      ("id", JValue.num 9)]) = .ok (none, ⟨true⟩) ∧
    emittedResponses ⟨true⟩ (some (JValue.obj [("method",
      JValue.str "notifications/initialized"), ("params", JValue.num 3),
      ("id", JValue.num 9)])) = [] :=
  claim_C8 ⟨true⟩ _ (by decide)

/-- Claim C9: `tools/list` is pure and deterministic — every call returns
the same fixed `{tools: [...]}` catalog whatever the session state, and
leaves the state unchanged; and `tools/call` never changes the state
either, so the `tools/list` result is independent of prior `tools/call`
invocations and of the lifecycle flag. -/
theorem claim_C9 :
    (∀ (st : ServerState) (kvs : List (String × JValue)),
      getD kvs "method" .null = JValue.str "tools/list" →
      handle_request st (.obj kvs) =
        .ok (some (successResponse (getD kvs "id" .null) handle_tools_list), st)) ∧
    (∀ (st : ServerState) (kvs : List (String × JValue)),
      getD kvs "method" .null = JValue.str "tools/call" →
      stateOf (handle_request st (.obj kvs)) = some st) := by
  constructor
  · intro st kvs hm
    simp [handle_request, hm]
  · intro st kvs hm
    simp only [handle_request, hm]
    cases h : handle_tool_call (getD kvs "params" (JValue.obj [])) <;>
      simp [stateOf, h]

/-- Witness for C9: a `tools/list` call in the uninitialized state and
after a `tools/call` returns the identical catalog and preserves state. -/
theorem claim_C9_witness :
    handle_request ⟨false⟩ (JValue.obj [("method", JValue.str "tools/list"),
      ("id", JValue.num 2)]) =
      .ok (some (successResponse (JValue.num 2) handle_tools_list), ⟨false⟩) ∧
    stateOf (handle_request ⟨false⟩ (JValue.obj [("method", JValue.str "tools/call"),
      ("params", JValue.obj [("name", JValue.str "sap_screenshot")])])) =
      some ⟨false⟩ :=
  ⟨claim_C9.1 ⟨false⟩ _ (by decide), claim_C9.2 ⟨false⟩ _ (by decide)⟩

/-- Claim C10: a line that decodes to valid JSON that is not an object
produces no output at all — the error boundary itself raises on the
non-mapping request, the loop catches it, and processing continues with
the next line. -/
theorem claim_C10 (st : ServerState) (v : JValue) (rest : List (Option JValue))
    (hv : isObjB v = false) :
    processParsed st (some v) = ([], st) ∧
    runServer st (some v :: rest) = runServer st rest := by
  have h : processParsed st (some v) = ([], st) := by
    cases v <;> simp [isObjB] at hv ⊢ <;> simp [processParsed, handle_request]
  exact ⟨h, by simp [runServer, h]⟩

/-- Witness for C10: the valid-JSON line `5` yields no output and the
loop goes on to answer a following parse error line. -/
theorem claim_C10_witness :
    processParsed ⟨false⟩ (some (JValue.num 5)) = ([], ⟨false⟩) ∧
    runServer ⟨false⟩ (some (JValue.num 5) :: [none]) = runServer ⟨false⟩ [none] :=
  claim_C10 ⟨false⟩ (JValue.num 5) [none] (by decide)

/-- Claim C7: a `tools/call` whose `name` matches no registered tool
identifier (the names of the catalog entries) produces a successful
result envelope — never a protocol error — whose text content states the
tool is unknown, names it, and lists example valid identifiers. -/
theorem claim_C7 (kvs : List (String × JValue))
    (hunk : ∀ s ∈ catalogToolNames, getD kvs "name" JValue.null ≠ JValue.str s) :
    handle_tool_call (.obj kvs) =
      .ok (JValue.obj [("content", JValue.arr [JValue.obj [("type", JValue.str "text"),
        ("text", JValue.str ("Unknown SAP tool: " ++
          pyShow false (getD kvs "name" JValue.null) ++
          ". Available tools: sap_connect, sap_navigate, sap_input_field, sap_get_table_data, etc."))]])]) := by
  have hns : catalogToolNames = ["sap_connect", "sap_disconnect", "sap_get_sessions",
    "sap_navigate", "sap_navigate_back", "sap_navigate_exit", "sap_input_field",
    "sap_get_field_value", "sap_clear_field", "sap_press_button", "sap_select_menu",
    "sap_send_key", "sap_get_table_data", "sap_set_table_cell", "sap_select_table_row",
    "sap_get_screen_info", "sap_get_status_message", "sap_screenshot",
    "sap_execute_transaction", "sap_wait_for_screen", "sap_export_data",
    "sap_import_data"] := by rfl
  rw [hns] at hunk
  simp only [List.forall_mem_cons] at hunk
  obtain ⟨q01, q02, q03, q04, q05, q06, q07, q08, q09, q10, q11, q12, q13, q14,
    q15, q16, q17, q18, q19, q20, q21, q22, -⟩ := hunk
  simp [handle_tool_call, asDict, Bind.bind, Except.bind, Functor.map,
    Except.map, pure, Except.pure, q01, q02, q03, q04, q05, q06, q07, q08, q09,
    q10, q11, q12, q13, q14, q15, q16, q17, q18, q19, q20, q21, q22]

/-- Witness for C7: the unregistered name "bogus" yields the success
envelope naming it. -/
theorem claim_C7_witness :
    handle_tool_call (JValue.obj [("name", JValue.str "bogus")]) =
      .ok (JValue.obj [("content", JValue.arr [JValue.obj [("type", JValue.str "text"),
        ("text", JValue.str "Unknown SAP tool: bogus. Available tools: sap_connect, sap_navigate, sap_input_field, sap_get_table_data, etc.")]])]) :=
  claim_C7 [("name", JValue.str "bogus")] (by decide)
